import Mathlib

/-!
Verification development for the serverless invocation-lifecycle core of the
datadog-agent repository (files `pkg/serverless/invocationlifecycle/trace.go`
and `pkg/serverless/invocationlifecycle/lifecycle.go`).

The Go code is shallowly embedded: machine integers (`uint64`, `int64`,
`int32`) become `Nat`/`Int` with explicit truncation where a conversion
happens in the source; the process-wide mutable slots (`currentExecutionInfo`
and the inferred span) become an explicit state record threaded through the
functions; the random generator and environment/config lookups become
parameters; the trace sink callback is modelled by returning the payload that
the code would hand to it.
-/

namespace InvocationLifecycle

/-! ### Model of `strconv.ParseUint(s, 0, 64)` from the Go standard library

The source calls `strconv.ParseUint` with base 0 (auto-detected base prefix)
and bit size 64.  Go returns a pair (value, error): on a syntax error the
value is 0, on a range error it is `2^64 - 1`.  The embedding mirrors the
stdlib algorithm over the characters of the string (the source strings of
interest are ASCII, where Go's byte-wise loop and this character-wise loop
agree; a non-ASCII character is a syntax error in both).
-/

/-- Error kind of `strconv.ParseUint`. -/
inductive NumErr where
  | syntaxError
  | rangeError
  deriving DecidableEq, Repr

/-- `1<<64 - 1`, the `maxVal` of `ParseUint` at bit size 64. -/
def maxUint64 : Nat := 2 ^ 64 - 1

/-- Go's `lower(c) = c | ('x' - 'X')` byte case-folding. -/
def lowerChar (c : Char) : Char := Char.ofNat (c.toNat ||| 0x20)

/-- One digit of the `ParseUint` loop: `none` means Go's immediate syntax
error (non-digit character, or digit not below the base). -/
def digitVal (base : Nat) (c : Char) : Option Nat :=
  if '0' ≤ c ∧ c ≤ '9' then
    let d := c.toNat - '0'.toNat
    if d < base then some d else none
  else if 'a' ≤ lowerChar c ∧ lowerChar c ≤ 'z' then
    let d := (lowerChar c).toNat - 'a'.toNat + 10
    if d < base then some d else none
  else none

/-- The accumulation loop of `ParseUint`: returns the accumulated value, a
flag recording whether an underscore was consumed, and the error, if any.
Go's two overflow checks (`n >= cutoff` and `n1 > maxVal`) collapse, in
unbounded arithmetic, to the single test `n * base + d > maxVal`. -/
def parseDigitsLoop (base0 : Bool) (base : Nat) :
    Nat → Bool → List Char → Nat × Bool × Option NumErr
  | n, u, [] => (n, u, none)
  | n, u, c :: rest =>
    if c = '_' ∧ base0 then parseDigitsLoop base0 base n true rest
    else
      match digitVal base c with
      | none => (0, u, some NumErr.syntaxError)
      | some d =>
        let n1 := n * base + d
        if n1 > maxUint64 then (maxUint64, u, some NumErr.rangeError)
        else parseDigitsLoop base0 base n1 u rest

/-- Digit test of Go's `underscoreOK` (hex digits allowed after an `0x`
prefix). -/
def uoDigit (hex : Bool) (c : Char) : Bool :=
  ('0' ≤ c ∧ c ≤ '9') ∨ (hex ∧ 'a' ≤ lowerChar c ∧ lowerChar c ≤ 'f')

/-- The scanning loop of Go's `underscoreOK`: `saw` tracks the class of the
previous character (`'^'` start, `'0'` digit or base prefix, `'_'`
underscore, `'!'` other). -/
def underscoreLoop (hex : Bool) : Char → List Char → Bool
  | saw, [] => saw ≠ '_'
  | saw, c :: rest =>
    if uoDigit hex c then underscoreLoop hex '0' rest
    else if c = '_' then
      if saw ≠ '0' then false else underscoreLoop hex '_' rest
    else if saw = '_' then false
    else underscoreLoop hex '!' rest

/-- Go's `strconv.underscoreOK`: underscores may only separate digits (or
follow a base prefix). -/
def underscoreOK (s : String) : Bool :=
  let cs := s.toList
  let cs :=
    match cs with
    | c :: rest => if c = '-' ∨ c = '+' then rest else cs
    | [] => cs
  match cs with
  | c0 :: c1 :: rest =>
    if c0 = '0' ∧ (lowerChar c1 = 'b' ∨ lowerChar c1 = 'o' ∨ lowerChar c1 = 'x') then
      underscoreLoop (lowerChar c1 = 'x') '0' rest
    else underscoreLoop false '^' (c0 :: c1 :: rest)
  | _ => underscoreLoop false '^' cs

/-- `strconv.ParseUint(s, 0, 64)`: returns the pair (value, error) exactly as
Go does, including the values Go returns alongside an error (0 for a syntax
error, `2^64-1` for a range error) — the caller in `trace.go` stores the
returned value even when the error is non-nil. -/
def parseUint0 (s : String) : Nat × Option NumErr :=
  match s.toList with
  | [] => (0, some NumErr.syntaxError)
  | c0 :: rest =>
    let p : Nat × List Char :=
      if c0 = '0' then
        match rest with
        | c1 :: c2 :: rest2 =>
          if lowerChar c1 = 'b' then (2, c2 :: rest2)
          else if lowerChar c1 = 'o' then (8, c2 :: rest2)
          else if lowerChar c1 = 'x' then (16, c2 :: rest2)
          else (8, c1 :: c2 :: rest2)
        | [c1] => (8, [c1])
        | [] => (10, ['0'])
      else (10, c0 :: rest)
    match parseDigitsLoop true p.1 0 false p.2 with
    | (n, u, none) =>
      if u ∧ ¬ underscoreOK s then (0, some NumErr.syntaxError) else (n, none)
    | (n, _, some e) => (n, some e)

example : parseUint0 "42" = (42, none) := by decide
example : parseUint0 "-1" = (0, some NumErr.syntaxError) := by decide
example : parseUint0 "" = (0, some NumErr.syntaxError) := by decide
example : parseUint0 "0x2a" = (42, none) := by decide
example : parseUint0 "052" = (42, none) := by decide
example : parseUint0 "18446744073709551616" = (maxUint64, some NumErr.rangeError) := by decide
example : parseUint0 "18446744073709551615" = (maxUint64, none) := by decide
example : parseUint0 "4_2" = (42, none) := by decide
example : parseUint0 "_42" = (0, some NumErr.syntaxError) := by decide

/-! ### Model of the regular-expression extraction in `convertRawPayload`

`convertRawPayload` runs `regexp.MustCompile("{(?:|(.*))*}").FindString` on
the raw payload.  Under Go's leftmost-first (Perl-preference) matching with
`.` not matching a newline, the behaviour of that pattern is: starting at the
leftmost `{` that admits a match — if the character right after the `{` is
`}` the preferred match is the two-character `{}` (the empty alternative is
tried first and the star then stops); otherwise the greedy `.*` extends the
match to the last `}` on the same line; a `{` with no `}` on the rest of its
line admits no match and scanning proceeds.  `FindString` returns the empty
string when there is no match.
-/

/-- Index of the last `}` of a character list, if any. -/
def lastCloseBrace (l : List Char) : Option Nat :=
  match l.reverse.findIdx? (fun c => c = '}') with
  | none => none
  | some k => some (l.length - 1 - k)

/-- The match search of `FindString` for the pattern of `convertRawPayload`
(see the section comment for the derivation of these semantics). -/
def regexFindFrom : List Char → Option (List Char)
  | [] => none
  | c :: rest =>
    if c = '{' then
      match rest with
      | '}' :: _ => some ['{', '}']
      | _ =>
        let line := rest.takeWhile (fun x => x ≠ '\n')
        match lastCloseBrace line with
        | some j => some ('{' :: line.take (j + 1))
        | none => regexFindFrom rest
    else regexFindFrom rest

/-- `reg.FindString rawPayload` for `reg = {(?:|(.*))*}`. -/
def regexFindString (s : String) : String :=
  match regexFindFrom s.toList with
  | some m => String.mk m
  | none => ""

example : regexFindString "noise\x7b\"a\":\"b\"\x7dtail" = "\x7b\"a\":\"b\"\x7d" := by decide
example : regexFindString "no braces" = "" := by decide
example : regexFindString "a\x7bb\nc\x7dd" = "" := by decide
example : regexFindString "x\x7b\x7dy\x7dz" = "\x7b\x7d" := by decide
example : regexFindString "\x7ba\x7bb\x7dc\x7d" = "\x7ba\x7bb\x7dc\x7d" := by decide

/-! ### Model of `encoding/json.Unmarshal` into `invocationPayload`

The source unmarshals the extracted substring into a struct with the single
field `Headers map[string]string` tagged `json:"headers"`.  `json.Unmarshal`
first validates the whole input and, on a syntax error, populates nothing, so
an invalid document leaves `Headers` nil.  The model implements the fragment
of JSON the call site can meaningfully consume: an object whose values are
strings or objects of strings (with the common escape sequences); a document
outside this fragment is treated as an unmarshal failure, i.e. a nil
`Headers`.  Go's field matching is ASCII-case-insensitive on the tag
`"headers"`; a duplicate key overwrites the earlier value, as in a Go map.
-/

/-- The embedded header mapping of the invocation payload (`Headers` is
`none` exactly when the Go map is nil). -/
structure invocationPayload where
  Headers : Option (List (String × String))
  deriving DecidableEq, Repr

/-- JSON whitespace skipping. -/
def skipWS (cs : List Char) : List Char :=
  cs.dropWhile (fun c => c = ' ' ∨ c = '\t' ∨ c = '\n' ∨ c = '\r')

/-- The character denoted by a single-character JSON escape, if legal. -/
def escChar (e : Char) : Option Char :=
  if e = '"' then some '"'
  else if e = '\\' then some '\\'
  else if e = '/' then some '/'
  else if e = 'n' then some '\n'
  else if e = 't' then some '\t'
  else if e = 'r' then some '\r'
  else none

/-- Body of a JSON string after its opening quote: returns the decoded
characters and the remainder after the closing quote. -/
def parseJStrAux : List Char → Option (List Char × List Char)
  | [] => none
  | '"' :: rest => some ([], rest)
  | '\\' :: e :: rest =>
    match escChar e with
    | some ch => (parseJStrAux rest).map (fun p => (ch :: p.1, p.2))
    | none => none
  | c :: rest =>
    if c.toNat < 0x20 then none
    else (parseJStrAux rest).map (fun p => (c :: p.1, p.2))

/-- A JSON string literal, starting at its opening quote. -/
def parseJStr (cs : List Char) : Option (String × List Char) :=
  match cs with
  | '"' :: rest => (parseJStrAux rest).map (fun p => (String.mk p.1, p.2))
  | _ => none

/-- Go map assignment `m[k] = v`: overwrite an existing key, else add. -/
def mapSet (m : List (String × String)) (k v : String) : List (String × String) :=
  if m.any (fun p => p.1 = k) then
    m.map (fun p => if p.1 = k then (k, v) else p)
  else m ++ [(k, v)]

/-- Pairs of a JSON object of strings, after the opening `{` when the object
is non-empty; positioned at the first key.  The fuel argument bounds the
number of pairs. -/
def parsePairsAux : Nat → List Char → List (String × String) →
    Option (List (String × String) × List Char)
  | 0, _, _ => none
  | fuel + 1, cs, acc =>
    match parseJStr cs with
    | none => none
    | some (k, rest) =>
      match skipWS rest with
      | ':' :: rest2 =>
        match parseJStr (skipWS rest2) with
        | none => none
        | some (v, rest3) =>
          match skipWS rest3 with
          | ',' :: rest4 => parsePairsAux fuel (skipWS rest4) (mapSet acc k v)
          | '}' :: rest5 => some (mapSet acc k v, rest5)
          | _ => none
      | _ => none

/-- A JSON object whose values are all strings (the type of the `headers`
field), starting at its opening `{`. -/
def parseStringMap (cs : List Char) : Option (List (String × String) × List Char) :=
  match skipWS cs with
  | '{' :: rest =>
    match skipWS rest with
    | '}' :: rest2 => some ([], rest2)
    | cs2 => parsePairsAux cs2.length cs2 []
  | _ => none

/-- ASCII lower-casing of letters only, as in Go's case-insensitive JSON
field matching. -/
def toLowerAscii (c : Char) : Char :=
  if 'A' ≤ c ∧ c ≤ 'Z' then Char.ofNat (c.toNat + 32) else c

/-- ASCII-case-insensitive string equality. -/
def eqFold (a b : String) : Bool :=
  a.toList.map toLowerAscii = b.toList.map toLowerAscii

/-- Fields of the top-level JSON object, positioned at the first key; a field
named `headers` (case-insensitively) must carry an object of strings and is
recorded, later occurrences overwriting earlier ones; other fields may carry
a string or an object of strings and are ignored.  The object must be
followed by nothing but whitespace, as `json.Unmarshal` rejects trailing
data. -/
def parseTopAux : Nat → List Char → Option (List (String × String)) →
    Option (Option (List (String × String)))
  | 0, _, _ => none
  | fuel + 1, cs, acc =>
    match parseJStr cs with
    | none => none
    | some (k, rest) =>
      match skipWS rest with
      | ':' :: rest2 =>
        let isHeaders := eqFold k "headers"
        let vres : Option (Option (List (String × String)) × List Char) :=
          match skipWS rest2 with
          | '{' :: _ => (parseStringMap (skipWS rest2)).map (fun p => (some p.1, p.2))
          | '"' :: _ => (parseJStr (skipWS rest2)).map (fun p => (none, p.2))
          | _ => none
        match vres with
        | none => none
        | some (v, rest3) =>
          match (if isHeaders then
                   match v with
                   | some m => some (some m)
                   | none => none
                 else some acc : Option (Option (List (String × String)))) with
          | none => none
          | some acc2 =>
            match skipWS rest3 with
            | ',' :: rest4 => parseTopAux fuel (skipWS rest4) acc2
            | '}' :: rest5 => if skipWS rest5 = [] then some acc2 else none
            | _ => none
      | _ => none

/-- `json.Unmarshal([]byte(s), &payload)` for `payload : invocationPayload`:
any failure leaves the zero value, i.e. a nil `Headers`. -/
def jsonUnmarshalPayload (s : String) : invocationPayload :=
  match skipWS s.toList with
  | '{' :: rest =>
    match skipWS rest with
    | '}' :: rest2 =>
      if skipWS rest2 = [] then { Headers := none } else { Headers := none }
    | cs2 =>
      match parseTopAux cs2.length cs2 none with
      | some h => { Headers := h }
      | none => { Headers := none }
  | _ => { Headers := none }

/-- `convertRawPayload` from `trace.go`: extract the brace-delimited
substring and unmarshal it; an unmarshal failure is only logged. -/
def convertRawPayload (rawPayload : String) : invocationPayload :=
  let subString := regexFindString rawPayload
  jsonUnmarshalPayload subString

example :
    (convertRawPayload "noise\x7b\"headers\":\x7b\"x-datadog-trace-id\":\"42\"\x7d\x7dtail").Headers =
      some [("x-datadog-trace-id", "42")] := by decide
example : (convertRawPayload "no braces").Headers = none := by decide
example : (convertRawPayload "\x7b\x7d").Headers = none := by decide
example : (convertRawPayload "\x7b\"headers\":\x7b\x7d\x7d").Headers = some [] := by decide
example : (convertRawPayload "\x7bnot json\x7d").Headers = none := by decide

/-! ### Data model of `trace.go` -/

/-- `executionStartInfo` from `trace.go`: the saved information from when an
execution span was started.  `time.Time` values are represented by their
`UnixNano` integer, which is the only way the code consumes them; the
`*uint64` sampling priority is an `Option Nat` (`none` = nil pointer). -/
structure executionStartInfo where
  startTime : Int
  traceID : Nat
  spanID : Nat
  parentID : Nat
  samplingPriority : Option Nat
  requestPayload : String
  deriving DecidableEq, Repr

/-- Modelled from the spec: the inner `pb.Span` identifiers of the inferred
span that `trace.go` reads and writes (`inferredSpan.Span.TraceID`,
`.SpanID`, `.ParentID`); the inferred-span builder itself lives outside the
given sources and is opaque. -/
structure InferredSpanData where
  TraceID : Nat
  SpanID : Nat
  ParentID : Nat
  deriving DecidableEq, Repr

/-- Modelled from the spec: the inferred-span slot used by `trace.go`
(`inferredSpan.Span` and `inferredSpan.SamplingPriority`). -/
structure InferredSpan where
  Span : InferredSpanData
  SamplingPriority : Option Nat
  deriving DecidableEq, Repr

/-- Modelled from the spec: the direct-invocation headers (trace ID and
parent ID as strings); the declaring file is outside the given sources. -/
structure LambdaInvokeEventHeaders where
  TraceID : String
  ParentID : String
  deriving DecidableEq, Repr

/-- Modelled from the spec: the trace-ID header key ("the specific header
keys of interest are a small fixed set"; the spec's scenario names this
one). -/
def TraceIDHeader : String := "x-datadog-trace-id"

/-- Modelled from the spec: the parent-ID header key. -/
def ParentIDHeader : String := "x-datadog-parent-id"

/-- Modelled from the spec: the sampling-priority header key. -/
def SamplingPriorityHeader : String := "x-datadog-sampling-priority"

/-- Go map read `m[k]` on a `map[string]string`: the zero value `""` when the
key is absent. -/
def goMapGet (m : List (String × String)) (k : String) : String :=
  match m.find? (fun p => p.1 = k) with
  | some p => p.2
  | none => ""

/-- Go map membership-style read, used to state key absence in span
metadata. -/
def goMapFind (m : List (String × String)) (k : String) : Option String :=
  (m.find? (fun p => p.1 = k)).map (fun p => p.2)

/-- The process-wide mutable state that `trace.go` manipulates: the
`currentExecutionInfo` slot together with the (external, package-level)
inferred-span slot. -/
structure TraceState where
  currentExecutionInfo : executionStartInfo
  inferredSpan : InferredSpan
  deriving DecidableEq, Repr

/-- `startExecutionSpan` from `trace.go`.  The two draws of
`rand.Random.Uint64()` become the parameters `randTraceID` and `randSpanID`,
the package flag `InferredSpansEnabled` becomes `inferredSpansEnabled`, and
the two global slots are threaded through `st`.  Note that the Go function
assigns `startTime`, `traceID`, `spanID`, `parentID` and `requestPayload`
but never assigns `samplingPriority` outside the header branch, so the slot
keeps its previous value when no sampling-priority header resolves — the
model carries `st.currentExecutionInfo.samplingPriority` into the rebuilt
record to mirror that.  In the direct-invocation branch Go assigns the
values returned by `strconv.ParseUint` to both ID fields before inspecting
the errors, so a failed parse still overwrites the field with the parse
function's returned value. -/
def startExecutionSpan (randTraceID randSpanID : Nat) (inferredSpansEnabled : Bool)
    (startTime : Int) (rawPayload : String)
    (invokeEventHeaders : LambdaInvokeEventHeaders) (st : TraceState) : TraceState :=
  let info0 : executionStartInfo :=
    { startTime := startTime
      traceID := randTraceID
      spanID := randSpanID
      parentID := 0
      samplingPriority := st.currentExecutionInfo.samplingPriority
      requestPayload := rawPayload }
  let info1 :=
    if inferredSpansEnabled then
      { info0 with
          traceID := st.inferredSpan.Span.TraceID
          parentID := st.inferredSpan.Span.SpanID }
    else info0
  match (convertRawPayload rawPayload).Headers with
  | some hs =>
    let r1 := parseUint0 (goMapGet hs TraceIDHeader)
    let r2 := parseUint0 (goMapGet hs ParentIDHeader)
    let r3 := parseUint0 (goMapGet hs SamplingPriorityHeader)
    let info2 := if r1.2 = none then { info1 with traceID := r1.1 } else info1
    let inf2 :=
      if r1.2 = none ∧ inferredSpansEnabled then
        { st.inferredSpan with Span := { st.inferredSpan.Span with TraceID := r1.1 } }
      else st.inferredSpan
    let info3 :=
      if r2.2 = none ∧ ¬ inferredSpansEnabled then { info2 with parentID := r2.1 }
      else info2
    let inf3 :=
      if r2.2 = none ∧ inferredSpansEnabled then
        { inf2 with Span := { inf2.Span with ParentID := r2.1 } }
      else inf2
    let info4 :=
      if r3.2 = none then { info3 with samplingPriority := some r3.1 } else info3
    let inf4 :=
      if r3.2 = none ∧ inferredSpansEnabled then
        { inf3 with SamplingPriority := some r3.1 }
      else inf3
    { currentExecutionInfo := info4, inferredSpan := inf4 }
  | none =>
    if invokeEventHeaders.TraceID ≠ "" then
      { currentExecutionInfo :=
          { info1 with
              traceID := (parseUint0 invokeEventHeaders.TraceID).1
              parentID := (parseUint0 invokeEventHeaders.ParentID).1 }
        inferredSpan := st.inferredSpan }
    else
      { currentExecutionInfo := info1, inferredSpan := st.inferredSpan }

/-- `TraceID` accessor from `trace.go`. -/
def TraceID (st : TraceState) : Nat := st.currentExecutionInfo.traceID

/-- `SpanID` accessor from `trace.go`. -/
def SpanID (st : TraceState) : Nat := st.currentExecutionInfo.spanID

/-! ### The emitted wire structures and `endExecutionSpan` -/

/-- The fields of the outbound `pb.Span` that `endExecutionSpan` fills
(output-only wire structure, owned by the external trace sink).  `Type` is a
reserved word in Lean, so the Go field `Type` is named `SpanType` here. -/
structure Span where
  Service : String
  Name : String
  Resource : String
  SpanType : String
  TraceID : Nat
  SpanID : Nat
  ParentID : Nat
  Start : Int
  Duration : Int
  Meta : List (String × String)
  Error : Int
  deriving DecidableEq, Repr

/-- The outbound `pb.TraceChunk`: its `Priority` is an `int32` with zero
value 0 when not assigned. -/
structure TraceChunk where
  Priority : Int
  Spans : List Span
  deriving DecidableEq, Repr

/-- The outbound `pb.TracerPayload`. -/
structure TracerPayload where
  Chunks : List TraceChunk
  deriving DecidableEq, Repr

/-- Go's conversion `int32(p)` of a `uint64` value: truncation to 32 bits,
then two's-complement reading. -/
def toInt32 (n : Nat) : Int :=
  let m : Nat := n % 2 ^ 32
  if m < 2 ^ 31 then Int.ofNat m else Int.ofNat m - 2 ^ 32

/-- Go `int64` wrap-around: the value an `int64` operation produces is the
mathematical result reduced into `[-2^63, 2^63)` modulo `2^64` (two's
complement).  The source subtracts two `int64` `UnixNano` values, and that
subtraction wraps on overflow. -/
def toInt64 (z : Int) : Int :=
  (z + 9223372036854775808) % 18446744073709551616 - 9223372036854775808

/-- `endExecutionSpan` from `trace.go`.  The environment lookup of
`AWS_LAMBDA_FUNCTION_NAME` becomes the parameter `functionName`, the config
read of `capture_lambda_payload` becomes `captureLambdaPayloadEnabled`, and
the `processTrace` callback is modelled by returning the `pb.TracerPayload`
the code hands to it.  The span's `Error` keeps its zero value 0 unless
`isError` is set.  `startTime` and `endTime` stand for the `int64` values
`UnixNano()` yields, and the duration is their difference in Go `int64`
arithmetic, which wraps on overflow — hence the `toInt64` reduction. -/
def endExecutionSpan (functionName : String) (captureLambdaPayloadEnabled : Bool)
    (requestID : String) (endTime : Int) (isError : Bool) (responsePayload : String)
    (cei : executionStartInfo) : TracerPayload :=
  let duration := toInt64 (endTime - cei.startTime)
  let executionSpan : Span :=
    { Service := "aws.lambda"
      Name := "aws.lambda"
      Resource := functionName
      SpanType := "serverless"
      TraceID := cei.traceID
      SpanID := cei.spanID
      ParentID := cei.parentID
      Start := cei.startTime
      Duration := duration
      Meta := [("request_id", requestID)]
      Error := 0 }
  let executionSpan :=
    if captureLambdaPayloadEnabled then
      { executionSpan with
          Meta := mapSet (mapSet executionSpan.Meta "function.request" cei.requestPayload)
            "function.response" responsePayload }
    else executionSpan
  let executionSpan := if isError then { executionSpan with Error := 1 } else executionSpan
  let traceChunk : TraceChunk :=
    { Priority :=
        match cei.samplingPriority with
        | some priority => toInt32 priority
        | none => 0
      Spans := [executionSpan] }
  { Chunks := [traceChunk] }

/-! ### The lifecycle orchestrator (`lifecycle.go`)

`OnInvokeStart` and `OnInvokeEnd` are modelled as pure functions returning
the new trace state together with the list of externally observable calls
they make (trace-sink invocation for the execution span, enhanced error
metric, inferred-span builder calls).  `DetectLambdaLibrary()` becomes the
boolean it returns; the two environment flags `DD_TRACE_ENABLED` and
`DD_TRACE_MANAGED_SERVICES` being both `"true"` become the single boolean
`tracingFlagsEnabled`; `CreateInferredSpan` is external and opaque, so its
effect on the inferred-span slot is an arbitrary parameter.  The version of
`lifecycle.go` given passes no direct-invocation headers to
`startExecutionSpan` and no response payload to `endExecutionSpan`, so the
model supplies the empty values there.
-/

/-- Modelled from the spec: the externally supplied immutable snapshot at
invocation start (its declaring file is outside the given sources). -/
structure InvocationStartDetails where
  StartTime : Int
  InvokeEventRawPayload : String
  deriving DecidableEq, Repr

/-- Modelled from the spec: the externally supplied immutable snapshot at
invocation end (its declaring file is outside the given sources). -/
structure InvocationEndDetails where
  EndTime : Int
  IsError : Bool
  RequestID : String
  deriving DecidableEq, Repr

/-- The externally observable calls of the two lifecycle hooks. -/
inductive LifecycleEvent where
  | executionSpanSent (tp : TracerPayload)
  | errorMetricSent (endTime : Int)
  | inferredSpanCreated
  | inferredSpanCompleted (endTime : Int) (isError : Bool) (requestID : String)
  deriving DecidableEq, Repr

/-- `LifecycleProcessor` from `lifecycle.go`, with `DetectLambdaLibrary`
modelled by the boolean it returns (the sink, demultiplexer and tags are
captured by the event list instead). -/
structure LifecycleProcessor where
  DetectLambdaLibrary : Bool
  deriving DecidableEq, Repr

/-- `OnInvokeStart` from `lifecycle.go`: skip `startExecutionSpan` when the
library detection reports an external owner; independently, create the
inferred span when both tracing flags hold (`createdInferredSpan` is the
opaque result of the external builder). -/
def OnInvokeStart (lp : LifecycleProcessor) (startDetails : InvocationStartDetails)
    (randTraceID randSpanID : Nat) (inferredSpansEnabled : Bool)
    (tracingFlagsEnabled : Bool) (createdInferredSpan : InferredSpan)
    (st : TraceState) : TraceState × List LifecycleEvent :=
  let st1 :=
    if ¬ lp.DetectLambdaLibrary then
      startExecutionSpan randTraceID randSpanID inferredSpansEnabled
        startDetails.StartTime startDetails.InvokeEventRawPayload
        { TraceID := "", ParentID := "" } st
    else st
  if tracingFlagsEnabled then
    ({ st1 with inferredSpan := createdInferredSpan }, [LifecycleEvent.inferredSpanCreated])
  else (st1, [])

/-- `OnInvokeEnd` from `lifecycle.go`: skip `endExecutionSpan` when the
library detection reports an external owner; emit the enhanced error metric
whenever `IsError` holds, regardless of detection; complete the inferred span
when both tracing flags hold.  The function only reads the trace state, so it
returns the event list alone. -/
def OnInvokeEnd (lp : LifecycleProcessor) (endDetails : InvocationEndDetails)
    (functionName : String) (captureLambdaPayloadEnabled : Bool)
    (tracingFlagsEnabled : Bool) (st : TraceState) : List LifecycleEvent :=
  (if ¬ lp.DetectLambdaLibrary then
      [LifecycleEvent.executionSpanSent
        (endExecutionSpan functionName captureLambdaPayloadEnabled
          endDetails.RequestID endDetails.EndTime endDetails.IsError ""
          st.currentExecutionInfo)]
    else [])
  ++ (if endDetails.IsError then [LifecycleEvent.errorMetricSent endDetails.EndTime] else [])
  ++ (if tracingFlagsEnabled then
        [LifecycleEvent.inferredSpanCompleted endDetails.EndTime endDetails.IsError
          endDetails.RequestID]
      else [])

/-! ### Helper definitions for the statements -/

/-- The sampling priority that a start over `rawPayload` resolves from the
embedded headers, if any: the value of a successfully parsed
sampling-priority header. -/
def resolvedSamplingPriority (rawPayload : String) : Option Nat :=
  match (convertRawPayload rawPayload).Headers with
  | some hs =>
    let r := parseUint0 (goMapGet hs SamplingPriorityHeader)
    if r.2 = none then some r.1 else none
  | none => none

/-- A concrete quiescent trace state used by the concrete-input theorems. -/
def st0 : TraceState :=
  { currentExecutionInfo :=
      { startTime := 0, traceID := 0, spanID := 0, parentID := 0,
        samplingPriority := none, requestPayload := "" }
    inferredSpan := { Span := { TraceID := 0, SpanID := 0, ParentID := 0 },
                      SamplingPriority := none } }

/-- The empty direct-invocation headers. -/
def noHeaders : LambdaInvokeEventHeaders := { TraceID := "", ParentID := "" }

/-- A trace state whose previous invocation resolved sampling priority 5. -/
def stPrio5 : TraceState :=
  { st0 with currentExecutionInfo :=
      { st0.currentExecutionInfo with samplingPriority := some 5 } }

/-- Direct-invocation headers with an unparseable trace ID and a parseable
parent ID. -/
def hdrAbc : LambdaInvokeEventHeaders := { TraceID := "abc", ParentID := "5" }

/-- A concrete quiescent inferred-span value. -/
def inf0 : InferredSpan :=
  { Span := { TraceID := 0, SpanID := 0, ParentID := 0 }, SamplingPriority := none }

/-- Concrete start details for the lifecycle theorems. -/
def sd0 : InvocationStartDetails := { StartTime := 0, InvokeEventRawPayload := "p" }

/-- Concrete end details of an error invocation. -/
def ed0 : InvocationEndDetails := { EndTime := 9, IsError := true, RequestID := "r" }

/-- A concrete trace payload, used to instantiate quantified events. -/
def tp0 : TracerPayload := { Chunks := [] }

/-- An execution-start slot whose start time is the minimum `int64`
`UnixNano` value (the year 1677), a valid timestamp. -/
def ceiMin : executionStartInfo :=
  { startTime := -9223372036854775808, traceID := 0, spanID := 0, parentID := 0,
    samplingPriority := none, requestPayload := "" }

/-! ### Theorems -/

/-- C6 counterexample: the exact-equality claim fails on the `int64`
subtraction the source performs — with the stored start time at the minimum
`int64` `UnixNano` (year 1677) and the end time at the maximum (year 2262),
both valid timestamps, the true difference `2^64 − 1` does not fit in
`int64` and the emitted `Duration` is the wrapped value −1 instead. -/
theorem endExecutionSpan_duration_wraps :
    (endExecutionSpan "f" false "r" 9223372036854775807 false "" ceiMin).Chunks.map
        (fun ch => ch.Spans.map (fun s => s.Duration)) = [[-1]] ∧
    (-1 : Int) ≠ 9223372036854775807 - ceiMin.startTime := by
  constructor
  · rfl
  · decide

/-- C6 amended: the span emitted by `endExecutionSpan` has `Start` equal to
the stored start time and `Duration` equal to `endTime − startTime` computed
in Go `int64` arithmetic — the difference reduced into `[-2^63, 2^63)` — so
the duration equals the exact difference whenever that difference fits in
`int64` (in particular for zero and negative deltas in range), and is the
wrapped value otherwise; it is derived from the two stored timestamps only,
never from the wall clock at emission. -/
theorem endExecutionSpan_start_and_duration_wrapped (functionName : String)
    (captureLambdaPayloadEnabled : Bool) (requestID : String) (endTime : Int)
    (isError : Bool) (responsePayload : String) (cei : executionStartInfo) :
    ((endExecutionSpan functionName captureLambdaPayloadEnabled requestID endTime
        isError responsePayload cei).Chunks.map
        (fun ch => ch.Spans.map (fun s => (s.Start, s.Duration))) =
      [[(cei.startTime, toInt64 (endTime - cei.startTime))]]) ∧
    (-9223372036854775808 ≤ endTime - cei.startTime →
      endTime - cei.startTime < 9223372036854775808 →
      toInt64 (endTime - cei.startTime) = endTime - cei.startTime) := by
  constructor
  · unfold endExecutionSpan
    split_ifs <;> rfl
  · intro h1 h2
    unfold toInt64
    omega

/-- C6 amended witness: at start time 0 and end time 5 the difference is in
range, so the emitted span carries `Start` 0 and `Duration` exactly 5. -/
theorem endExecutionSpan_start_and_duration_wrapped_witness :
    ((endExecutionSpan "f" false "r" 5 false ""
        st0.currentExecutionInfo).Chunks.map
        (fun ch => ch.Spans.map (fun s => (s.Start, s.Duration))) =
      [[(0, 5)]]) ∧
    toInt64 (5 - st0.currentExecutionInfo.startTime) =
      5 - st0.currentExecutionInfo.startTime :=
  ⟨((endExecutionSpan_start_and_duration_wrapped "f" false "r" 5 false ""
        st0.currentExecutionInfo).1).trans (by decide),
    (endExecutionSpan_start_and_duration_wrapped "f" false "r" 5 false ""
        st0.currentExecutionInfo).2 (by decide) (by decide)⟩

/-- C7: the span emitted by `endExecutionSpan` has its error indicator set to
1 exactly when the `isError` argument is true, and keeps its zero value 0
otherwise. -/
theorem endExecutionSpan_error_flag (functionName : String)
    (captureLambdaPayloadEnabled : Bool) (requestID : String) (endTime : Int)
    (isError : Bool) (responsePayload : String) (cei : executionStartInfo) :
    (endExecutionSpan functionName captureLambdaPayloadEnabled requestID endTime
        isError responsePayload cei).Chunks.map
        (fun ch => ch.Spans.map (fun s => s.Error)) =
      [[if isError then 1 else 0]] := by
  unfold endExecutionSpan
  split_ifs <;> rfl

/-- C8: with the capture-payload setting disabled, the span emitted by
`endExecutionSpan` carries no `function.request` and no `function.response`
metadata entry, whatever the stored request payload and the supplied response
payload; and every field other than the metadata is built exactly as with
capture enabled. -/
theorem endExecutionSpan_capture_disabled (functionName : String) (requestID : String)
    (endTime : Int) (isError : Bool) (responsePayload : String)
    (cei : executionStartInfo) :
    ((endExecutionSpan functionName false requestID endTime isError responsePayload
          cei).Chunks.map
        (fun ch => ch.Spans.map (fun s => goMapFind s.Meta "function.request")) =
      [[none]]) ∧
    ((endExecutionSpan functionName false requestID endTime isError responsePayload
          cei).Chunks.map
        (fun ch => ch.Spans.map (fun s => goMapFind s.Meta "function.response")) =
      [[none]]) ∧
    ((endExecutionSpan functionName false requestID endTime isError responsePayload
          cei).Chunks.map
        (fun ch => ch.Spans.map (fun s => { s with Meta := [] })) =
      (endExecutionSpan functionName true requestID endTime isError responsePayload
          cei).Chunks.map
        (fun ch => ch.Spans.map (fun s => { s with Meta := [] }))) := by
  refine ⟨?_, ?_, ?_⟩ <;> cases isError <;> rfl

/-- C10: for every input — any raw payload, any direct-invocation headers,
inferred-span mode on or off — the execution span's own span ID is exactly
the freshly generated random value: no branch of `startExecutionSpan` ever
overwrites the `spanID` field, so the `SpanID` accessor returns that random
value. -/
theorem startExecutionSpan_spanID_random (randTraceID randSpanID : Nat)
    (inferredSpansEnabled : Bool) (startTime : Int) (rawPayload : String)
    (invokeEventHeaders : LambdaInvokeEventHeaders) (st : TraceState) :
    SpanID (startExecutionSpan randTraceID randSpanID inferredSpansEnabled startTime
        rawPayload invokeEventHeaders st) = randSpanID := by
  unfold SpanID startExecutionSpan
  rcases h : (convertRawPayload rawPayload).Headers with _ | hs <;>
    simp only [h] <;> split_ifs <;> rfl

/-- C3: for every raw payload whose extracted brace-delimited substring
decodes to a header mapping with a trace-ID header that parses as unsigned
64-bit, with inferred-span mode disabled, after `startExecutionSpan` the
`TraceID` accessor returns exactly the parsed header value. -/
theorem startExecutionSpan_embedded_traceID (randTraceID randSpanID : Nat)
    (startTime : Int) (rawPayload : String)
    (invokeEventHeaders : LambdaInvokeEventHeaders) (st : TraceState)
    (hs : List (String × String))
    (hH : (convertRawPayload rawPayload).Headers = some hs)
    (hparse : (parseUint0 (goMapGet hs TraceIDHeader)).2 = none) :
    TraceID (startExecutionSpan randTraceID randSpanID false startTime rawPayload
        invokeEventHeaders st) =
      (parseUint0 (goMapGet hs TraceIDHeader)).1 := by
  unfold TraceID startExecutionSpan
  simp only [hH, hparse]
  split_ifs <;> simp_all

/-- C3 witness: the spec's scenario — payload
`noise{"headers":{"x-datadog-trace-id":"42"}}tail`, empty direct headers,
inferred spans disabled — resolves trace ID 42 and parent ID 0. -/
theorem startExecutionSpan_embedded_traceID_witness :
    (convertRawPayload
        "noise\x7b\"headers\":\x7b\"x-datadog-trace-id\":\"42\"\x7d\x7dtail").Headers =
      some [("x-datadog-trace-id", "42")] ∧
    (parseUint0 (goMapGet [("x-datadog-trace-id", "42")] TraceIDHeader)).2 = none ∧
    TraceID (startExecutionSpan 7 8 false 0
        "noise\x7b\"headers\":\x7b\"x-datadog-trace-id\":\"42\"\x7d\x7dtail"
        noHeaders st0) = 42 ∧
    (startExecutionSpan 7 8 false 0
        "noise\x7b\"headers\":\x7b\"x-datadog-trace-id\":\"42\"\x7d\x7dtail"
        noHeaders st0).currentExecutionInfo.parentID = 0 :=
  ⟨by decide, by decide,
    (startExecutionSpan_embedded_traceID 7 8 0
        "noise\x7b\"headers\":\x7b\"x-datadog-trace-id\":\"42\"\x7d\x7dtail"
        noHeaders st0 [("x-datadog-trace-id", "42")] (by decide) (by decide)).trans
      (by decide),
    by decide⟩

/-- C4: for every payload with an embedded header mapping whose trace-ID
header parses but whose parent-ID header does not, `startExecutionSpan` with
inferred spans disabled yields the parsed trace ID together with a zero
parent ID; and the sampling-priority field is likewise applied on its own
success, independently of the parent-ID failure. -/
theorem startExecutionSpan_fields_independent (randTraceID randSpanID : Nat)
    (startTime : Int) (rawPayload : String)
    (invokeEventHeaders : LambdaInvokeEventHeaders) (st : TraceState)
    (hs : List (String × String))
    (hH : (convertRawPayload rawPayload).Headers = some hs)
    (h1 : (parseUint0 (goMapGet hs TraceIDHeader)).2 = none)
    (h2 : (parseUint0 (goMapGet hs ParentIDHeader)).2 ≠ none) :
    TraceID (startExecutionSpan randTraceID randSpanID false startTime rawPayload
        invokeEventHeaders st) =
      (parseUint0 (goMapGet hs TraceIDHeader)).1 ∧
    (startExecutionSpan randTraceID randSpanID false startTime rawPayload
        invokeEventHeaders st).currentExecutionInfo.parentID = 0 ∧
    ((parseUint0 (goMapGet hs SamplingPriorityHeader)).2 = none →
      (startExecutionSpan randTraceID randSpanID false startTime rawPayload
          invokeEventHeaders st).currentExecutionInfo.samplingPriority =
        some (parseUint0 (goMapGet hs SamplingPriorityHeader)).1) := by
  unfold TraceID startExecutionSpan
  simp only [hH]
  split_ifs <;> simp_all

/-- C4 witness: a payload with a valid trace ID (42) and an unparseable
parent ID (`oops`) yields trace ID 42 and parent ID 0. -/
theorem startExecutionSpan_fields_independent_witness :
    (convertRawPayload
        "\x7b\"headers\":\x7b\"x-datadog-trace-id\":\"42\",\"x-datadog-parent-id\":\"oops\"\x7d\x7d").Headers =
      some [("x-datadog-trace-id", "42"), ("x-datadog-parent-id", "oops")] ∧
    TraceID (startExecutionSpan 9 10 false 3
        "\x7b\"headers\":\x7b\"x-datadog-trace-id\":\"42\",\"x-datadog-parent-id\":\"oops\"\x7d\x7d"
        noHeaders st0) = 42 ∧
    (startExecutionSpan 9 10 false 3
        "\x7b\"headers\":\x7b\"x-datadog-trace-id\":\"42\",\"x-datadog-parent-id\":\"oops\"\x7d\x7d"
        noHeaders st0).currentExecutionInfo.parentID = 0 :=
  ⟨by decide,
    ((startExecutionSpan_fields_independent 9 10 3
        "\x7b\"headers\":\x7b\"x-datadog-trace-id\":\"42\",\"x-datadog-parent-id\":\"oops\"\x7d\x7d"
        noHeaders st0
        [("x-datadog-trace-id", "42"), ("x-datadog-parent-id", "oops")]
        (by decide) (by decide) (by decide)).1).trans (by decide),
    (startExecutionSpan_fields_independent 9 10 3
        "\x7b\"headers\":\x7b\"x-datadog-trace-id\":\"42\",\"x-datadog-parent-id\":\"oops\"\x7d\x7d"
        noHeaders st0
        [("x-datadog-trace-id", "42"), ("x-datadog-parent-id", "oops")]
        (by decide) (by decide) (by decide)).2.1⟩

/-- C1 counterexample: the claim that `startExecutionSpan` overwrites every
field of the execution-start slot is false for `samplingPriority` — a
priority resolved by a previous invocation (here 5) is still present after a
new start that resolves none (empty payload, empty direct headers), where the
claim requires it to be absent. -/
theorem startExecutionSpan_stale_samplingPriority :
    (startExecutionSpan 3 4 false 1 "" noHeaders
        (startExecutionSpan 1 2 false 0
          "\x7b\"headers\":\x7b\"x-datadog-sampling-priority\":\"5\"\x7d\x7d"
          noHeaders st0)).currentExecutionInfo.samplingPriority = some 5 := by decide

/-- C1 amended: `startExecutionSpan` overwrites `startTime`, `traceID`,
`spanID`, `parentID` and `requestPayload` — two starts with the same inputs
from any two prior states with the same inferred-span slot agree on all of
them — but it does not reset `samplingPriority`: that field is overwritten
only when the new payload resolves a sampling-priority header, and otherwise
keeps the value left by the previous invocation. -/
theorem startExecutionSpan_overwrites_amended (randTraceID randSpanID : Nat)
    (inferredSpansEnabled : Bool) (startTime : Int) (rawPayload : String)
    (invokeEventHeaders : LambdaInvokeEventHeaders) (s1 s2 : TraceState)
    (hinf : s1.inferredSpan = s2.inferredSpan) :
    ({ (startExecutionSpan randTraceID randSpanID inferredSpansEnabled startTime
          rawPayload invokeEventHeaders s1).currentExecutionInfo with
        samplingPriority := none } =
      { (startExecutionSpan randTraceID randSpanID inferredSpansEnabled startTime
          rawPayload invokeEventHeaders s2).currentExecutionInfo with
        samplingPriority := none }) ∧
    (startExecutionSpan randTraceID randSpanID inferredSpansEnabled startTime
        rawPayload invokeEventHeaders s1).currentExecutionInfo.samplingPriority =
      (match resolvedSamplingPriority rawPayload with
       | some v => some v
       | none => s1.currentExecutionInfo.samplingPriority) := by
  unfold startExecutionSpan resolvedSamplingPriority
  rcases h : (convertRawPayload rawPayload).Headers with _ | hs <;>
    simp only [h, hinf] <;> split_ifs <;> simp_all

/-- C1 amended witness: instantiated at a prior state carrying priority 5 and
a fresh start resolving nothing, so the stale priority persists while the
other five fields agree with a start from a clean state. -/
theorem startExecutionSpan_overwrites_amended_witness :
    stPrio5.inferredSpan = st0.inferredSpan ∧
    ({ (startExecutionSpan 1 2 false 0 "" noHeaders stPrio5).currentExecutionInfo with
        samplingPriority := none } =
      { (startExecutionSpan 1 2 false 0 "" noHeaders st0).currentExecutionInfo with
        samplingPriority := none }) ∧
    (startExecutionSpan 1 2 false 0 "" noHeaders
        stPrio5).currentExecutionInfo.samplingPriority =
      (match resolvedSamplingPriority "" with
       | some v => some v
       | none => stPrio5.currentExecutionInfo.samplingPriority) :=
  ⟨rfl, startExecutionSpan_overwrites_amended 1 2 false 0 "" noHeaders stPrio5 st0 rfl⟩

/-- C2 counterexample: with no embedded headers, direct headers carrying the
unparseable trace ID `abc` and the parseable parent ID `5`, and random
default trace ID 7, the resulting trace ID is 0 — the value
`strconv.ParseUint` returns on a syntax error — not the step-1 default 7, and
the parent ID is applied as 5 independently; the claim that both fields are
left at the step-1 defaults together is false. -/
theorem startExecutionSpan_direct_header_clobbers :
    (startExecutionSpan 7 8 false 0 "noise" hdrAbc st0).currentExecutionInfo.traceID = 0 ∧
    (startExecutionSpan 7 8 false 0 "noise" hdrAbc st0).currentExecutionInfo.traceID ≠ 7 ∧
    (startExecutionSpan 7 8 false 0 "noise" hdrAbc st0).currentExecutionInfo.parentID = 5 := by
  decide

/-- C2 amended: in the direct-invocation path (no embedded header mapping,
non-empty direct trace ID), the trace ID and parent ID are each
unconditionally assigned the value returned by their own `ParseUint` call —
on success the parsed value, on a syntax error 0, on a range error
`2^64 − 1` — so a parse failure overwrites the step-1 default rather than
preserving it, and the two fields are assigned independently. -/
theorem startExecutionSpan_direct_header_amended (randTraceID randSpanID : Nat)
    (inferredSpansEnabled : Bool) (startTime : Int) (rawPayload : String)
    (invokeEventHeaders : LambdaInvokeEventHeaders) (st : TraceState)
    (hH : (convertRawPayload rawPayload).Headers = none)
    (hne : invokeEventHeaders.TraceID ≠ "") :
    (startExecutionSpan randTraceID randSpanID inferredSpansEnabled startTime
        rawPayload invokeEventHeaders st).currentExecutionInfo.traceID =
      (parseUint0 invokeEventHeaders.TraceID).1 ∧
    (startExecutionSpan randTraceID randSpanID inferredSpansEnabled startTime
        rawPayload invokeEventHeaders st).currentExecutionInfo.parentID =
      (parseUint0 invokeEventHeaders.ParentID).1 := by
  unfold startExecutionSpan
  simp only [hH]
  split_ifs <;> simp_all

/-- C2 amended witness: at the concrete direct headers (`abc`, `5`) the two
fields receive their own parse results (0 and 5). -/
theorem startExecutionSpan_direct_header_amended_witness :
    (convertRawPayload "noise").Headers = none ∧
    hdrAbc.TraceID ≠ "" ∧
    ((startExecutionSpan 7 8 false 0 "noise" hdrAbc st0).currentExecutionInfo.traceID =
        (parseUint0 hdrAbc.TraceID).1 ∧
      (startExecutionSpan 7 8 false 0 "noise" hdrAbc st0).currentExecutionInfo.parentID =
        (parseUint0 hdrAbc.ParentID).1) :=
  ⟨by decide, by decide,
    startExecutionSpan_direct_header_amended 7 8 false 0 "noise" hdrAbc st0
      (by decide) (by decide)⟩

/-- C5 counterexample: for the embedded sampling-priority header `"-1"` —
a signed decimal integer the claim says is recorded — `strconv.ParseUint`
fails, the sampling priority stays unresolved (`none`), and the emitted trace
chunk carries the zero default priority instead of −1. -/
theorem samplingPriority_negative_not_recorded :
    (startExecutionSpan 1 2 false 0
        "\x7b\"headers\":\x7b\"x-datadog-sampling-priority\":\"-1\"\x7d\x7d"
        noHeaders st0).currentExecutionInfo.samplingPriority = none ∧
    (endExecutionSpan "f" false "r" 5 false ""
        (startExecutionSpan 1 2 false 0
          "\x7b\"headers\":\x7b\"x-datadog-sampling-priority\":\"-1\"\x7d\x7d"
          noHeaders st0).currentExecutionInfo).Chunks.map
      (fun ch => ch.Priority) = [0] := by decide

/-- C5 amended: the sampling-priority header is parsed as an *unsigned*
64-bit value (a negative decimal such as `"-1"` does not parse and leaves the
priority unresolved); whenever it does parse, `startExecutionSpan` records
the value and `endExecutionSpan` attaches it — converted through Go's
`int32(·)` truncation — as the priority of the emitted trace chunk. -/
theorem samplingPriority_recorded_amended (randTraceID randSpanID : Nat)
    (startTime : Int) (rawPayload : String)
    (invokeEventHeaders : LambdaInvokeEventHeaders) (st : TraceState)
    (hs : List (String × String)) (functionName : String)
    (captureLambdaPayloadEnabled : Bool) (requestID : String) (endTime : Int)
    (isError : Bool) (responsePayload : String)
    (hH : (convertRawPayload rawPayload).Headers = some hs)
    (h3 : (parseUint0 (goMapGet hs SamplingPriorityHeader)).2 = none) :
    (startExecutionSpan randTraceID randSpanID false startTime rawPayload
        invokeEventHeaders st).currentExecutionInfo.samplingPriority =
      some (parseUint0 (goMapGet hs SamplingPriorityHeader)).1 ∧
    (endExecutionSpan functionName captureLambdaPayloadEnabled requestID endTime
        isError responsePayload
        (startExecutionSpan randTraceID randSpanID false startTime rawPayload
          invokeEventHeaders st).currentExecutionInfo).Chunks.map
      (fun ch => ch.Priority) =
      [toInt32 (parseUint0 (goMapGet hs SamplingPriorityHeader)).1] := by
  have hsp : (startExecutionSpan randTraceID randSpanID false startTime rawPayload
      invokeEventHeaders st).currentExecutionInfo.samplingPriority =
      some (parseUint0 (goMapGet hs SamplingPriorityHeader)).1 := by
    unfold startExecutionSpan
    simp only [hH]
    split_ifs <;> simp_all
  refine ⟨hsp, ?_⟩
  unfold endExecutionSpan
  split_ifs <;> simp [hsp]

/-- C5 amended witness: the header value `"3"` parses, is recorded, and the
emitted chunk carries priority 3. -/
theorem samplingPriority_recorded_amended_witness :
    (convertRawPayload
        "\x7b\"headers\":\x7b\"x-datadog-sampling-priority\":\"3\"\x7d\x7d").Headers =
      some [("x-datadog-sampling-priority", "3")] ∧
    (parseUint0
        (goMapGet [("x-datadog-sampling-priority", "3")] SamplingPriorityHeader)).2 =
      none ∧
    ((startExecutionSpan 1 2 false 0
          "\x7b\"headers\":\x7b\"x-datadog-sampling-priority\":\"3\"\x7d\x7d"
          noHeaders st0).currentExecutionInfo.samplingPriority =
        some (parseUint0
          (goMapGet [("x-datadog-sampling-priority", "3")] SamplingPriorityHeader)).1 ∧
      (endExecutionSpan "f" false "r" 5 false ""
          (startExecutionSpan 1 2 false 0
            "\x7b\"headers\":\x7b\"x-datadog-sampling-priority\":\"3\"\x7d\x7d"
            noHeaders st0).currentExecutionInfo).Chunks.map
        (fun ch => ch.Priority) =
        [toInt32 (parseUint0
          (goMapGet [("x-datadog-sampling-priority", "3")] SamplingPriorityHeader)).1]) :=
  ⟨by decide, by decide,
    samplingPriority_recorded_amended 1 2 0
      "\x7b\"headers\":\x7b\"x-datadog-sampling-priority\":\"3\"\x7d\x7d"
      noHeaders st0 [("x-datadog-sampling-priority", "3")] "f" false "r" 5 false ""
      (by decide) (by decide)⟩

/-- C9: when library detection returns true, `OnInvokeStart` and
`OnInvokeEnd` leave every field of the execution-start slot unchanged and
never send the execution span to the trace sink; yet an invocation ending
with the error flag still emits the enhanced invocation-error metric. -/
theorem library_detected_noop (lp : LifecycleProcessor)
    (startDetails : InvocationStartDetails) (endDetails : InvocationEndDetails)
    (randTraceID randSpanID : Nat)
    (inferredSpansEnabled tracingFlagsStart tracingFlagsEnd : Bool)
    (captureLambdaPayloadEnabled : Bool) (createdInferredSpan : InferredSpan)
    (functionName : String) (st st2 : TraceState)
    (hdet : lp.DetectLambdaLibrary = true) :
    (OnInvokeStart lp startDetails randTraceID randSpanID inferredSpansEnabled
        tracingFlagsStart createdInferredSpan st).1.currentExecutionInfo =
      st.currentExecutionInfo ∧
    (∀ tp, LifecycleEvent.executionSpanSent tp ∉
      (OnInvokeStart lp startDetails randTraceID randSpanID inferredSpansEnabled
        tracingFlagsStart createdInferredSpan st).2) ∧
    (∀ tp, LifecycleEvent.executionSpanSent tp ∉
      OnInvokeEnd lp endDetails functionName captureLambdaPayloadEnabled
        tracingFlagsEnd st2) ∧
    (endDetails.IsError = true →
      LifecycleEvent.errorMetricSent endDetails.EndTime ∈
        OnInvokeEnd lp endDetails functionName captureLambdaPayloadEnabled
          tracingFlagsEnd st2) := by
  refine ⟨?_, ?_, ?_, ?_⟩
  · unfold OnInvokeStart
    simp only [hdet]
    split_ifs <;> simp_all
  · intro tp
    unfold OnInvokeStart
    simp only [hdet]
    split_ifs <;> simp_all
  · intro tp
    unfold OnInvokeEnd
    simp only [hdet]
    split_ifs <;> simp_all
  · intro he
    unfold OnInvokeEnd
    simp only [hdet, he]
    split_ifs <;> simp_all

/-- C9 witness: instantiated with detection returning true and an error
invocation — the slot is untouched, no execution span reaches the sink, and
the error metric is emitted. -/
theorem library_detected_noop_witness :
    ({ DetectLambdaLibrary := true } : LifecycleProcessor).DetectLambdaLibrary = true ∧
    (OnInvokeStart { DetectLambdaLibrary := true } sd0 1 2 false true inf0
        st0).1.currentExecutionInfo = st0.currentExecutionInfo ∧
    LifecycleEvent.executionSpanSent tp0 ∉
      (OnInvokeStart { DetectLambdaLibrary := true } sd0 1 2 false true inf0 st0).2 ∧
    LifecycleEvent.executionSpanSent tp0 ∉
      OnInvokeEnd { DetectLambdaLibrary := true } ed0 "f" false true st0 ∧
    LifecycleEvent.errorMetricSent 9 ∈
      OnInvokeEnd { DetectLambdaLibrary := true } ed0 "f" false true st0 := by
  have h := library_detected_noop { DetectLambdaLibrary := true } sd0 ed0 1 2
    false true true false inf0 "f" st0 st0 rfl
  exact ⟨rfl, h.1, h.2.1 tp0, h.2.2.1 tp0, h.2.2.2 rfl⟩

end InvocationLifecycle
